import Mathlib

/-!
Verification development for the salesforce front-end toolkit repository.

It shallowly embeds the two behavioural components of the repository:

* `Ext.util.Stateful` (src/unnamed/part_001): a mixin giving an object a
  data bag (`this[persistanceProperty]`, default `this.data`), a dirty flag,
  an editing flag and a `modified` map, with `set`, `isModified`, `setDirty`,
  `reject` and `commit` operations.
* `Ext.util.GeoLocation`
  (src/SalesForce-JQM/public/sencha/src/platform/src/util/GeoLocation.js):
  a wrapper over the browser geolocation provider with `fireUpdate`,
  `fireError`, `parseOptions` and `updateLocation`.
* `getPage` (src/unnamed/part_000): synchronous XHR helper.

JavaScript values stored in the data bag are modelled by `JsVal`; objects
used as string-keyed maps are modelled by association lists whose key order
is insertion order, matching for-in enumeration order of JS objects, with
`bagGet`/`bagSet`/`bagHas`/`bagFind` playing the roles of property read,
property write, `hasOwnProperty` and guarded read.  Notification hooks
(`afterEdit`, `afterCommit`, `afterReject`, `fireEvent`) are defined outside
the embedded files; events fired are modelled as explicit output lists and
the hooks change no state of the embedded objects.
-/

/-- A JavaScript value as stored in a Stateful record's data bag.  Function
values get an opaque identifier; `reject` treats them specially via
`typeof v != "function"`. -/
inductive JsVal where
  | undefined
  | null
  | bool (b : Bool)
  | num (n : Int)
  | str (s : String)
  | fn (id : Nat)
deriving DecidableEq, Repr

/-- The `typeof v == "function"` test of JavaScript. -/
def isFunction : JsVal → Bool
  | JsVal.fn _ => true
  | _ => false

/-- A JavaScript object used as a string-keyed map (the data bag and the
modified map), in insertion order. -/
abbrev Bag := List (String × JsVal)

/-- Property read `obj[k]`: the stored value, or `undefined` when the key is
absent. -/
def bagGet : Bag → String → JsVal
  | [], _ => JsVal.undefined
  | (k1, v1) :: rest, k => if k1 = k then v1 else bagGet rest k

/-- Property write `obj[k] = v`: replaces an existing entry in place, else
appends (JS objects keep insertion order for enumeration). -/
def bagSet : Bag → String → JsVal → Bag
  | [], k, v => [(k, v)]
  | (k1, v1) :: rest, k, v =>
    if k1 = k then (k, v) :: rest else (k1, v1) :: bagSet rest k v

/-- The `obj.hasOwnProperty(k)` test. -/
def bagHas : Bag → String → Bool
  | [], _ => false
  | (k1, _) :: rest, k => k1 = k || bagHas rest k

/-- Guarded read: the entry stored for `k`, when one exists. -/
def bagFind : Bag → String → Option JsVal
  | [], _ => none
  | (k1, v1) :: rest, k => if k1 = k then some v1 else bagFind rest k

/-- A field definition as consulted by `Stateful.set` (`this.fields.get(name)`)
and enumerated by `Stateful.setDirty` (`this.fields.each`).  Only the name and
the optional custom convert function matter to the embedded code. -/
structure DataField where
  name : String
  convert : Option (JsVal → JsVal)

/-- The state of an `Ext.util.Stateful` instance: the data bag
(`this[persistanceProperty]`), the `modified` map (`none` models the state
after `delete this.modified`), the `dirty` and `editing` flags, and the field
definitions. -/
structure Stateful where
  data : Bag
  modified : Option Bag
  dirty : Bool
  editing : Bool
  fields : List DataField

/-- The `Ext.util.Stateful` constructor: `this.modified = {}` and
`this[this.persistanceProperty] = {}`; `dirty` and `editing` keep their
declared defaults `false`.  The superclass (`Ext.util.Observable`) constructor
only installs event listeners and is outside the embedded file. -/
def Stateful.init (fields : List DataField) : Stateful :=
  { data := [], modified := some [], dirty := false, editing := false,
    fields := fields }

/-- `Ext.util.Stateful.get`. -/
def Stateful.get (s : Stateful) (field : String) : JsVal :=
  bagGet s.data field

/-- The single-field branch of `Ext.util.Stateful.set` (part_001 lines
94-107): an optional custom convert function is applied to the value, the
data bag is written, and the dirty flag is raised.  The `afterEdit`
notification fired when not editing changes no state.  The object-argument
branch of `set` is a sequence of calls to this branch, one per key. -/
def Stateful.set (s : Stateful) (fieldName : String) (value : JsVal) : Stateful :=
  let value :=
    match s.fields.find? (fun f => f.name == fieldName) with
    | some field =>
      match field.convert with
      | some cv => cv value
      | none => value
    | none => value
  { s with data := bagSet s.data fieldName value, dirty := true }

/-- `Ext.util.Stateful.isModified`:
`!!(this.modified && this.modified.hasOwnProperty(fieldName))`. -/
def Stateful.isModified (s : Stateful) (fieldName : String) : Bool :=
  match s.modified with
  | some m => bagHas m fieldName
  | none => false

/-- `Ext.util.Stateful.setDirty`: raises the dirty flag, recreates `modified`
when it was deleted, and records the current data-bag value of every defined
field into `modified`. -/
def Stateful.setDirty (s : Stateful) : Stateful :=
  let m0 := s.modified.getD []
  { s with dirty := true,
           modified :=
             some (s.fields.foldl
               (fun m f => bagSet m f.name (bagGet s.data f.name)) m0) }

/-- One iteration of the for-in loop of `Ext.util.Stateful.reject`: a
modified entry whose recorded value is not a function is written back into
the data bag. -/
def rejectStep (d : Bag) (kv : String × JsVal) : Bag :=
  if isFunction kv.2 then d else bagSet d kv.1 kv.2

/-- `Ext.util.Stateful.reject`: iterates over the `modified` map (zero
iterations when it was deleted), writes back every non-function entry,
clears the dirty and editing flags and deletes `modified`.  The `silent`
argument only suppresses the `afterReject` notification, which changes no
state. -/
def Stateful.reject (s : Stateful) (silent : Bool) : Stateful :=
  let m := s.modified.getD []
  { s with data := m.foldl rejectStep s.data,
           dirty := false, editing := false, modified := none }

/-- `Ext.util.Stateful.commit`: clears the dirty and editing flags and
deletes `modified`.  The `silent` argument only suppresses the `afterCommit`
notification, which changes no state. -/
def Stateful.commit (s : Stateful) (silent : Bool) : Stateful :=
  { s with dirty := false, editing := false, modified := none }

/-- The records reachable from the `Stateful` constructor by any sequence of
`set`, `setDirty`, `commit` and `reject` calls. -/
inductive Stateful.Reachable : Stateful → Prop where
  | init (fields : List DataField) : Stateful.Reachable (Stateful.init fields)
  | set {s : Stateful} (f : String) (v : JsVal) :
      Stateful.Reachable s → Stateful.Reachable (s.set f v)
  | setDirty {s : Stateful} :
      Stateful.Reachable s → Stateful.Reachable s.setDirty
  | commit {s : Stateful} (silent : Bool) :
      Stateful.Reachable s → Stateful.Reachable (s.commit silent)
  | reject {s : Stateful} (silent : Bool) :
      Stateful.Reachable s → Stateful.Reachable (s.reject silent)

/-- A JavaScript slot that can be `undefined`, `null`, or hold a value of
type `α`.  Used for geolocation properties, whose initial value is `null`
and which a provider may leave `undefined`. -/
inductive JsOpt (α : Type) where
  | undef
  | null
  | val (a : α)
deriving DecidableEq, Repr

/-- The loose-equality test `x == undefined` of JavaScript, which is true
exactly for `undefined` and `null`. -/
def jsEqUndefined {α : Type} : JsOpt α → Bool
  | JsOpt.undef => true
  | JsOpt.null => true
  | JsOpt.val _ => false

/-- The pattern `typeof x == 'undefined' ? null : x` used by `fireUpdate`
for the `heading` and `speed` coordinates. -/
def undefToNull {α : Type} : JsOpt α → JsOpt α
  | JsOpt.undef => JsOpt.null
  | JsOpt.null => JsOpt.null
  | JsOpt.val a => JsOpt.val a

/-- A JavaScript number restricted to the values the geolocation options
take: a finite number of milliseconds or `Infinity` (the default `timeout`). -/
inductive JsNum where
  | fin (n : Int)
  | inf
deriving DecidableEq, Repr

/-- The `coords` member of a W3C geolocation `Position`.  Per the wrapper's
own documentation only timestamp, latitude, longitude and accuracy are always
present; the others can be null or (for google gears) undefined. -/
structure GeoCoords where
  latitude : JsOpt Int
  longitude : JsOpt Int
  accuracy : JsOpt Int
  altitude : JsOpt Int
  altitudeAccuracy : JsOpt Int
  heading : JsOpt Int
  speed : JsOpt Int
deriving DecidableEq, Repr

/-- A W3C geolocation `Position` as delivered to the wrapper's success
callbacks. -/
structure GeoPosition where
  timestamp : JsOpt Int
  coords : GeoCoords
deriving DecidableEq, Repr

/-- A `PositionError` as delivered to the wrapper's error callbacks:
`fireError` compares `error.code` against the error object's own constant
properties `TIMEOUT`, `PERMISSION_DENIED` and `POSITION_UNAVAILABLE`, and
guards `error.message` against `undefined`. -/
structure PositionError where
  code : Int
  TIMEOUT : Int
  PERMISSION_DENIED : Int
  POSITION_UNAVAILABLE : Int
  message : JsOpt String
deriving DecidableEq, Repr

/-- The mutable state of an `Ext.util.GeoLocation` instance: the read-only
position properties (all initially `null`) and the position-option settings. -/
structure GeoLocation where
  autoUpdate : Bool := true
  latitude : JsOpt Int := JsOpt.null
  longitude : JsOpt Int := JsOpt.null
  accuracy : JsOpt Int := JsOpt.null
  altitude : JsOpt Int := JsOpt.null
  altitudeAccuracy : JsOpt Int := JsOpt.null
  heading : JsOpt Int := JsOpt.null
  speed : JsOpt Int := JsOpt.null
  timestamp : JsOpt Int := JsOpt.null
  allowHighAccuracy : Bool := false
  timeout : JsNum := JsNum.inf
  maximumAge : JsNum := JsNum.fin 0
deriving DecidableEq, Repr

/-- An event fired through `this.fireEvent` by the embedded GeoLocation
methods: `locationerror` with its four payload arguments after `this`,
`locationupdate`, and the deprecated legacy `update` event whose first
argument is `this` on success and `false` on failure. -/
inductive GeoEvent where
  | locationerror (isTimeout : Bool) (isPermissionDenied : Bool)
      (isLocationUnavailable : Bool) (message : JsOpt String)
  | locationupdate
  | updateLegacy (success : Bool)
deriving DecidableEq, Repr

/-- The first argument passed to an `updateLocation` callback: the wrapper
itself on success, `null` on failure. -/
inductive CallbackArg where
  | selfRef
  | nullRef
deriving DecidableEq, Repr

/-- `Ext.util.GeoLocation.fireError` (GeoLocation.js lines 386-392): fires a
single `locationerror` event classifying `error.code` against the error
object's own constants, with `error.message == undefined ? null :
error.message` as message payload.  No wrapper state changes. -/
def GeoLocation.fireError (error : PositionError) : List GeoEvent :=
  [GeoEvent.locationerror
    (decide (error.code = error.TIMEOUT))
    (decide (error.code = error.PERMISSION_DENIED))
    (decide (error.code = error.POSITION_UNAVAILABLE))
    (if jsEqUndefined error.message then JsOpt.null else error.message)]

/-- `Ext.util.GeoLocation.fireUpdate` (GeoLocation.js lines 373-385): copies
the delivered position into the read-only properties, mapping `undefined`
`heading`/`speed` to `null` (google gears does not provide those two), then
fires `locationupdate`. -/
def GeoLocation.fireUpdate (g : GeoLocation) (position : GeoPosition) :
    GeoLocation × List GeoEvent :=
  ({ g with
      timestamp := position.timestamp,
      latitude := position.coords.latitude,
      longitude := position.coords.longitude,
      accuracy := position.coords.accuracy,
      altitude := position.coords.altitude,
      altitudeAccuracy := position.coords.altitudeAccuracy,
      heading := undefToNull position.coords.heading,
      speed := undefToNull position.coords.speed },
   [GeoEvent.locationupdate])

/-- The object returned by `Ext.util.GeoLocation.parseOptions`: `timeout` is
`none` when the property was not assigned. -/
structure ParsedOptions where
  maximumAge : JsNum
  allowHighAccuracy : Bool
  timeout : Option JsNum
deriving DecidableEq, Repr

/-- `Ext.util.GeoLocation.parseOptions` (GeoLocation.js lines 393-403):
builds `{maximumAge, allowHighAccuracy}` and assigns `timeout` only when
`this.timeout !== Infinity` (google does not like Infinity). -/
def GeoLocation.parseOptions (g : GeoLocation) : ParsedOptions :=
  let ret : ParsedOptions :=
    { maximumAge := g.maximumAge,
      allowHighAccuracy := g.allowHighAccuracy,
      timeout := none }
  if g.timeout ≠ JsNum.inf then { ret with timeout := some g.timeout } else ret

/-- The behaviour of `this.provider.getCurrentPosition` on one call: it
delivers a position to the success callback, delivers an error to the error
callback, or the invocation itself throws an exception with the given
message (as it does, for instance, when the provider is `null`). -/
inductive ProviderResult where
  | success (p : GeoPosition)
  | failure (e : PositionError)
  | throwsMsg (msg : String)
deriving Repr

/-- The `failFunction` closure inside `updateLocation`: with an error object
it delegates to `fireError`, otherwise it fires `locationerror` directly
with the unavailable flag set and the given message; then it invokes the
callback with `null` when one was supplied, and fires the legacy `update`
event with `false`. -/
def GeoLocation.failFunction (message : JsOpt String)
    (error : Option PositionError) (hasCallback : Bool) :
    List GeoEvent × List CallbackArg :=
  let errorEvents :=
    match error with
    | some e => GeoLocation.fireError e
    | none => [GeoEvent.locationerror false false true message]
  (errorEvents ++ [GeoEvent.updateLegacy false],
   if hasCallback then [CallbackArg.nullRef] else [])

/-- `Ext.util.GeoLocation.updateLocation` (GeoLocation.js lines 326-370), a
one-shot acquisition: when geolocation is unsupported, `failFunction(null)`
runs (through a zero-delay timer); otherwise `getCurrentPosition` is invoked
and its success callback runs `fireUpdate`, invokes the callback with the
wrapper and fires the legacy `update` event, its error callback runs
`failFunction(null, error)`, and a thrown exception runs
`failFunction(e.message)`.  `supported` models `Ext.supports.GeoLocation`,
`hasCallback` whether a callback argument was supplied; the scope and
positionOptions arguments affect no modelled observable. -/
def GeoLocation.updateLocation (g : GeoLocation) (supported : Bool)
    (res : ProviderResult) (hasCallback : Bool) :
    GeoLocation × List GeoEvent × List CallbackArg :=
  if supported = false then
    let fc := GeoLocation.failFunction JsOpt.null none hasCallback
    (g, fc.1, fc.2)
  else
    match res with
    | ProviderResult.success p =>
      let fu := g.fireUpdate p
      (fu.1, fu.2 ++ [GeoEvent.updateLegacy true],
       if hasCallback then [CallbackArg.selfRef] else [])
    | ProviderResult.failure e =>
      let fc := GeoLocation.failFunction JsOpt.null (some e) hasCallback
      (g, fc.1, fc.2)
    | ProviderResult.throwsMsg msg =>
      let fc := GeoLocation.failFunction (JsOpt.val msg) none hasCallback
      (g, fc.1, fc.2)

/-- An event is one of the two notifications the wrapper documents
(`locationupdate` or `locationerror`), as opposed to the deprecated legacy
`update` event. -/
def isNotification : GeoEvent → Bool
  | GeoEvent.locationerror _ _ _ _ => true
  | GeoEvent.locationupdate => true
  | GeoEvent.updateLegacy _ => false

/-- Test for the `locationupdate` event. -/
def isLocationUpdate : GeoEvent → Bool
  | GeoEvent.locationupdate => true
  | _ => false

/-- Test for the `locationerror` event. -/
def isLocationError : GeoEvent → Bool
  | GeoEvent.locationerror _ _ _ _ => true
  | _ => false

/-- Whether the provider delivered a position. -/
def ProviderResult.isSuccess : ProviderResult → Bool
  | ProviderResult.success _ => true
  | _ => false

/-- The result of `getPage` (src/unnamed/part_000): the raw response text,
the value obtained by evaluating the response text (kept symbolic), or the
numeric error sentinel. -/
inductive GetPageResult where
  | text (s : String)
  | evaled (s : String)
  | errorCode (n : Int)
deriving DecidableEq, Repr

/-- `getPage(url, execute)` (src/unnamed/part_000 lines 1-19): when
`window.XMLHttpRequest` exists, a synchronous GET is issued; a non-null
response text is returned raw (or evaluated when `execute` is truthy), and
every other path falls through to `return -1`.  The environment is modelled
by `xhrAvailable` and by the response text of the synchronous request
(`none` models a null response text). -/
def getPage (xhrAvailable : Bool) (responseText : Option String)
    (execute : Bool) : GetPageResult :=
  if xhrAvailable then
    match responseText with
    | some t => if execute then GetPageResult.evaled t else GetPageResult.text t
    | none => GetPageResult.errorCode (-1)
  else
    GetPageResult.errorCode (-1)

/-- Reading a key just written returns the written value. -/
theorem bagGet_bagSet_same (d : Bag) (k : String) (v : JsVal) :
    bagGet (bagSet d k v) k = v := by
  induction d with
  | nil => simp [bagSet, bagGet]
  | cons kv rest ih =>
    obtain ⟨k1, v1⟩ := kv
    by_cases h : k1 = k
    · simp [bagSet, bagGet, h]
    · simp [bagSet, bagGet, h, ih]

/-- Writing one key leaves every other key unchanged. -/
theorem bagGet_bagSet_ne (d : Bag) (k f : String) (v : JsVal) (h : k ≠ f) :
    bagGet (bagSet d k v) f = bagGet d f := by
  induction d with
  | nil => simp [bagSet, bagGet, h]
  | cons kv rest ih =>
    obtain ⟨k1, v1⟩ := kv
    by_cases h1 : k1 = k
    · subst h1
      simp [bagSet, bagGet, h]
    · simp [bagSet, bagGet, h1, ih]

/-- The write-back loop of `reject` leaves a key absent from the modified
map unchanged. -/
theorem rejectFold_not_mem (m : Bag) (d : Bag) (f : String)
    (h : f ∉ m.map Prod.fst) :
    bagGet (m.foldl rejectStep d) f = bagGet d f := by
  induction m generalizing d with
  | nil => rfl
  | cons kv rest ih =>
    obtain ⟨k, v⟩ := kv
    simp only [List.map_cons, List.mem_cons, not_or] at h
    obtain ⟨hkf, hrest⟩ := h
    rw [List.foldl_cons, ih _ hrest]
    unfold rejectStep
    by_cases hv : isFunction v
    · simp [hv]
    · simp [hv, bagGet_bagSet_ne d k f v (fun he => hkf he.symm)]

/-- Pointwise effect of the write-back loop of `reject` on a modified map
with no duplicate keys: a key recorded with a non-function value ends at
that value, every other key keeps its previous data-bag value. -/
theorem rejectFold_get (m : Bag) (d : Bag) (f : String)
    (hnd : (m.map Prod.fst).Nodup) :
    bagGet (m.foldl rejectStep d) f =
      (match bagFind m f with
       | some v => if isFunction v then bagGet d f else v
       | none => bagGet d f) := by
  revert hnd
  induction m generalizing d with
  | nil => intro hnd; rfl
  | cons kv rest ih =>
    intro hnd
    obtain ⟨k, v⟩ := kv
    simp only [List.map_cons, List.nodup_cons] at hnd
    obtain ⟨hk, hnd2⟩ := hnd
    by_cases hf : k = f
    · subst hf
      rw [List.foldl_cons, rejectFold_not_mem rest _ k hk]
      have hfind : bagFind ((k, v) :: rest) k = some v := by simp [bagFind]
      rw [hfind]
      unfold rejectStep
      by_cases hv : isFunction v
      · simp [hv]
      · simp [hv, bagGet_bagSet_same]
    · have hd : bagGet (rejectStep d (k, v)) f = bagGet d f := by
        unfold rejectStep
        by_cases hv : isFunction v
        · simp [hv]
        · simp [hv, bagGet_bagSet_ne d k f v hf]
      have hfind : bagFind ((k, v) :: rest) f = bagFind rest f := by
        simp [bagFind, hf]
      rw [List.foldl_cons, ih _ hnd2, hd, hfind]

/-- C1: the claim fails on the code.  Starting from the constructor (no
field definitions), after `set("a", 1)` the bag holds 1; a further
`set("a", 2)` while not editing leaves `isModified("a")` false, and a
subsequent `reject()` leaves the bag value of "a" at 2 instead of restoring
the pre-set value 1: `set` never records the field in `this.modified`,
contrary to the claim and to the code's own doc comments on `modified`,
`getChanges` and `reject`. -/
theorem stateful_set_skips_modified_tracking :
    ((Stateful.init []).set "a" (JsVal.num 1)).data = [("a", JsVal.num 1)] ∧
    (((Stateful.init []).set "a" (JsVal.num 1)).set "a" (JsVal.num 2)).isModified
      "a" = false ∧
    ((((Stateful.init []).set "a" (JsVal.num 1)).set "a"
      (JsVal.num 2)).reject false).data = [("a", JsVal.num 2)] := by
  decide

/-- C2: for every record reachable from the constructor by any sequence of
`set`, `setDirty`, `commit` and `reject` calls, whenever the `modified` map
exists and is non-empty, the `dirty` flag is true. -/
theorem stateful_modified_implies_dirty (s : Stateful) (m : Bag)
    (h : Stateful.Reachable s) (hm : s.modified = some m) (hne : m ≠ []) :
    s.dirty = true := by
  revert hm hne
  induction h generalizing m with
  | init fields =>
    intro hm hne
    simp only [Stateful.init, Option.some.injEq] at hm
    exact absurd hm.symm hne
  | set f v hr ih =>
    intro hm hne
    rfl
  | setDirty hr ih =>
    intro hm hne
    rfl
  | commit silent hr ih =>
    intro hm hne
    simp [Stateful.commit] at hm
  | reject silent hr ih =>
    intro hm hne
    simp [Stateful.reject] at hm

/-- C2 witness: a record reached by `setDirty` from a constructor with one
field definition has a non-empty modified map and is dirty. -/
theorem stateful_modified_implies_dirty_witness :
    (Stateful.setDirty (Stateful.init [{ name := "a", convert := none }])).dirty
      = true :=
  stateful_modified_implies_dirty _ [("a", JsVal.undefined)]
    (Stateful.Reachable.setDirty (Stateful.Reachable.init _)) rfl (by decide)

/-- C6: `set` on any single field raises the dirty flag, and `commit`
(silent or not) makes the record clean again: dirty and editing become
false and `isModified` returns false for every field name. -/
theorem stateful_set_dirty_commit_clean (s : Stateful) (f : String) (v : JsVal)
    (silent : Bool) (g : String) :
    (s.set f v).dirty = true ∧ (s.commit silent).dirty = false ∧
    (s.commit silent).editing = false ∧ (s.commit silent).isModified g = false :=
  ⟨rfl, rfl, rfl, rfl⟩

/-- C8: `commit` changes only the dirty, editing and modified properties;
the data bag and the field definitions are left untouched. -/
theorem stateful_commit_frame (s : Stateful) (silent : Bool) :
    (s.commit silent).data = s.data ∧ (s.commit silent).fields = s.fields :=
  ⟨rfl, rfl⟩

/-- C9: `reject` writes back every modified entry whose recorded value is
not a function and leaves the current data-bag value for fields recorded
with a function value; afterwards dirty and editing are false and the
modified map is deleted.  The modified map, a JS object, has no duplicate
keys. -/
theorem stateful_reject_skips_functions (s : Stateful) (m : Bag)
    (silent : Bool) (f : String) (hm : s.modified = some m)
    (hnd : (m.map Prod.fst).Nodup) :
    (s.reject silent).dirty = false ∧ (s.reject silent).editing = false ∧
    (s.reject silent).modified = none ∧
    bagGet (s.reject silent).data f =
      (match bagFind m f with
       | some v => if isFunction v then bagGet s.data f else v
       | none => bagGet s.data f) := by
  refine ⟨rfl, rfl, rfl, ?_⟩
  have hdata : (s.reject silent).data = m.foldl rejectStep s.data := by
    simp [Stateful.reject, hm]
  rw [hdata, rejectFold_get m s.data f hnd]

/-- A concrete record with one non-function and one function-valued entry in
its modified map. -/
def rejectExample : Stateful :=
  { data := [("a", JsVal.num 5), ("b", JsVal.num 6)],
    modified := some [("a", JsVal.num 1), ("b", JsVal.fn 0)],
    dirty := true, editing := false, fields := [] }

/-- C9 witness: on `rejectExample`, reject clears the flags, deletes the
modified map, and restores field "a" to its recorded original 1. -/
theorem stateful_reject_skips_functions_witness :
    (rejectExample.reject false).dirty = false ∧
    (rejectExample.reject false).editing = false ∧
    (rejectExample.reject false).modified = none ∧
    bagGet (rejectExample.reject false).data "a" =
      (match bagFind [("a", JsVal.num 1), ("b", JsVal.fn 0)] "a" with
       | some v => if isFunction v then bagGet rejectExample.data "a" else v
       | none => bagGet rejectExample.data "a") :=
  stateful_reject_skips_functions rejectExample
    [("a", JsVal.num 1), ("b", JsVal.fn 0)] false "a" rfl (by decide)

/-- C3: `fireError` fires exactly one `locationerror` event whose boolean
payload compares `error.code` with the error object's own `TIMEOUT`,
`PERMISSION_DENIED` and `POSITION_UNAVAILABLE` constants, and whose message
payload is the provider's message, or null when that message is undefined
(the loose `== undefined` test also maps a null message to null, which is
again the provider's message). -/
theorem geo_fireError_classifies (error : PositionError) :
    (GeoLocation.fireError error).length = 1 ∧
    GeoLocation.fireError error =
      [GeoEvent.locationerror
        (decide (error.code = error.TIMEOUT))
        (decide (error.code = error.PERMISSION_DENIED))
        (decide (error.code = error.POSITION_UNAVAILABLE))
        (match error.message with
         | JsOpt.val msgv => JsOpt.val msgv
         | _ => JsOpt.null)] := by
  refine ⟨rfl, ?_⟩
  cases h : error.message <;>
    simp [GeoLocation.fireError, jsEqUndefined, h]

/-- C4: `parseOptions` copies the instance's `maximumAge` and
`allowHighAccuracy` settings verbatim and assigns a `timeout` field (equal
to the instance's timeout) exactly when the instance's timeout is not
Infinity. -/
theorem geo_parseOptions_translates (g : GeoLocation) :
    (g.parseOptions).maximumAge = g.maximumAge ∧
    (g.parseOptions).allowHighAccuracy = g.allowHighAccuracy ∧
    (g.parseOptions).timeout =
      (if g.timeout = JsNum.inf then none else some g.timeout) ∧
    (g.parseOptions).timeout.isSome = !(decide (g.timeout = JsNum.inf)) := by
  by_cases h : g.timeout = JsNum.inf <;>
    simp [GeoLocation.parseOptions, h]

/-- C5: one call to `updateLocation` fires exactly one notification event: a
`locationupdate` exactly when geolocation is supported and the provider
delivers a position, a `locationerror` in every other case (provider error,
unsupported geolocation, or a throwing provider invocation); and a supplied
callback is invoked exactly once, with the wrapper on success and with null
on failure. -/
theorem geo_updateLocation_one_notification (g : GeoLocation)
    (supported : Bool) (res : ProviderResult) (hasCallback : Bool) :
    ((g.updateLocation supported res hasCallback).2.1.countP isNotification
       = 1) ∧
    ((g.updateLocation supported res hasCallback).2.1.countP isLocationUpdate
       = (if supported && res.isSuccess then 1 else 0)) ∧
    ((g.updateLocation supported res hasCallback).2.1.countP isLocationError
       = (if supported && res.isSuccess then 0 else 1)) ∧
    ((g.updateLocation supported res hasCallback).2.2
       = (if hasCallback then
            [if supported && res.isSuccess then CallbackArg.selfRef
             else CallbackArg.nullRef]
          else [])) := by
  cases supported <;> cases res <;> cases hasCallback <;>
    simp [GeoLocation.updateLocation, GeoLocation.failFunction,
      GeoLocation.fireError, GeoLocation.fireUpdate, ProviderResult.isSuccess,
      isNotification, isLocationUpdate, isLocationError,
      List.countP_cons, List.countP_nil, List.countP_append]

/-- C7: `fireUpdate` copies the delivered position's timestamp, latitude,
longitude, accuracy, altitude and altitudeAccuracy into the wrapper, sets
heading and speed to the delivered values or to null when the provider
leaves them undefined, and fires one `locationupdate` event. -/
theorem geo_fireUpdate_postcondition (g : GeoLocation) (p : GeoPosition) :
    (g.fireUpdate p).1.timestamp = p.timestamp ∧
    (g.fireUpdate p).1.latitude = p.coords.latitude ∧
    (g.fireUpdate p).1.longitude = p.coords.longitude ∧
    (g.fireUpdate p).1.accuracy = p.coords.accuracy ∧
    (g.fireUpdate p).1.altitude = p.coords.altitude ∧
    (g.fireUpdate p).1.altitudeAccuracy = p.coords.altitudeAccuracy ∧
    (g.fireUpdate p).1.heading =
      (match p.coords.heading with
       | JsOpt.undef => JsOpt.null
       | h => h) ∧
    (g.fireUpdate p).1.speed =
      (match p.coords.speed with
       | JsOpt.undef => JsOpt.null
       | sp => sp) ∧
    (g.fireUpdate p).2 = [GeoEvent.locationupdate] := by
  refine ⟨rfl, rfl, rfl, rfl, rfl, rfl, ?_, ?_, rfl⟩
  · cases h : p.coords.heading <;>
      simp [GeoLocation.fireUpdate, undefToNull, h]
  · cases h : p.coords.speed <;>
      simp [GeoLocation.fireUpdate, undefToNull, h]

/-- C10: `getPage` returns the sentinel -1 whenever `window.XMLHttpRequest`
is unavailable or the synchronous response text is null, and with a
non-null response text and a falsy `execute` it returns the raw response
text. -/
theorem getPage_error_sentinel (rt : Option String) (ex : Bool) (t : String) :
    getPage false rt ex = GetPageResult.errorCode (-1) ∧
    getPage true none ex = GetPageResult.errorCode (-1) ∧
    getPage true (some t) false = GetPageResult.text t :=
  ⟨rfl, rfl, rfl⟩
